import Mathlib

/-!
Verification of the Zoho-CRM-to-Trello integration service.

The JavaScript sources are embedded shallowly:

* `Deal` mirrors the record objects returned by the CRM search; fields that
  may be `undefined` in JavaScript are `Option String`.
* Remote calls (`createProjectBoard`, `updateDealWithBoardId`, the raw HTTP
  transport) are parameterised by explicit environments giving each call's
  outcome, and every function also returns the trace of remote calls it
  issued, so that "no write call is made" is a provable statement.
* Thrown JavaScript errors are `Except.error` values carrying the message.
-/

namespace ZohoTrello

/-- A CRM deal record as handled by the services.  JavaScript objects may
lack any of these fields, so every field the code tests for truthiness is an
`Option`.  `Project_Board_ID_c` is the field written by
`updateDealWithBoardId` and read by the sync loop's skip guard;
`Project_Board_ID__c` (double underscore) is the distinct name that
`getEligibleDeals` filters on. -/
structure Deal where
  id : String
  Deal_Name : Option String
  Stage : Option String
  Type_ : Option String
  Project_Board_ID_c : Option String
  Project_Board_ID__c : Option String
deriving DecidableEq, Repr

/-- JavaScript truthiness of an optional string: `undefined` and the empty
string are falsy. -/
def strTruthy : Option String → Bool
  | none => false
  | some s => s ≠ ""

/-- JavaScript `String.prototype.trim`: strip whitespace from both ends of
the string. -/
def jsTrim (s : String) : String :=
  ⟨((s.data.dropWhile Char.isWhitespace).reverse.dropWhile Char.isWhitespace).reverse⟩

/-- The third validation condition of `validateDeal`:
`deal.Deal_Name && deal.Deal_Name.trim() !== ''`.  The `&&` short-circuits,
so `.trim()` is only ever invoked on an actual string. -/
def dealNameCondition (name : Option String) : Bool :=
  match name with
  | none => false
  | some s => if s = "" then false else jsTrim s ≠ ""

/-- The `validations` array of `IntegrationService.validateDeal`: each entry
is the already-evaluated boolean condition paired with its failure
message. -/
def validations (d : Deal) : List (Bool × String) :=
  [ (d.Stage = some "Project Kickoff", "Deal stage must be \x22Project Kickoff\x22")
  , (d.Type_ = some "New Implementation Project", "Deal type must be \x22New Implementation Project\x22")
  , (dealNameCondition d.Deal_Name, "Deal must have a valid name") ]

/-- The `for` loop of `validateDeal`: the message of the first failing
validation, or `none` when every condition holds. -/
def firstFailure : List (Bool × String) → Option String
  | [] => none
  | (c, m) :: rest => if c then firstFailure rest else some m

/-- `IntegrationService.validateDeal`: true exactly when the loop finds no
failing validation. -/
def validateDeal (d : Deal) : Bool :=
  (firstFailure (validations d)).isNone

/-- Evaluating the name condition under JavaScript semantics where calling
`.trim()` on `undefined` would throw (`Except.error ()`); the source guards
the call with `&&`, so the throwing branch is unreachable. -/
def dealNameConditionJs (name : Option String) : Except Unit Bool :=
  match name with
  | none => Except.ok false
  | some s => if s = "" then Except.ok false else Except.ok (jsTrim s ≠ "")

/-- `validateDeal` under throw-aware JavaScript semantics: the conditions of
the `validations` array literal are all evaluated up front, each one able in
principle to throw. -/
def validateDealJs (d : Deal) : Except Unit Bool := do
  let c3 ← dealNameConditionJs d.Deal_Name
  pure (firstFailure
    [ (d.Stage = some "Project Kickoff", "Deal stage must be \x22Project Kickoff\x22")
    , (d.Type_ = some "New Implementation Project", "Deal type must be \x22New Implementation Project\x22")
    , (c3, "Deal must have a valid name") ]).isNone

/-- The skip guard of `syncDealsToTrello`:
`deal.Project_Board_ID_c && deal.Project_Board_ID_c.trim() !== ''`. -/
def hasBoardId (d : Deal) : Bool :=
  match d.Project_Board_ID_c with
  | none => false
  | some s => if s = "" then false else jsTrim s ≠ ""

/-- Handle of a created Trello board, as used by `processDeal`
(`projectBoard.board.id` / `.url`). -/
structure BoardHandle where
  id : String
  url : String
deriving DecidableEq, Repr

/-- The collaborator operations `syncDealsToTrello` depends on: board
provisioning (`trelloService.createProjectBoard`, keyed by the deal's name
and id) and CRM write-back (`zohoService.updateDealWithBoardId`).  Each
returns either a value or the thrown error's message. -/
structure Env where
  createBoard : Option String → String → Except String BoardHandle
  updateDeal : String → String → Except String Unit

/-- A remote write call issued by the sync loop. -/
inductive Call where
  | provision (dealName : Option String) (dealId : String)
  | writeBack (dealId : String) (boardId : String)
deriving DecidableEq, Repr

/-- Value returned by a successful `processDeal`. -/
structure ProcessOk where
  dealId : String
  dealName : Option String
  boardId : String
  boardUrl : String
deriving DecidableEq, Repr

/-- `IntegrationService.processDeal`: validate, provision a board, write the
board id back; the first failure propagates.  Also returns the remote write
calls issued (including a failed attempt). -/
def processDeal (env : Env) (d : Deal) : Except String ProcessOk × List Call :=
  if ¬ validateDeal d then
    (Except.error "Deal does not meet all criteria", [])
  else
    match env.createBoard d.Deal_Name d.id with
    | Except.error e => (Except.error e, [Call.provision d.Deal_Name d.id])
    | Except.ok board =>
      match env.updateDeal d.id board.id with
      | Except.error e =>
          (Except.error e, [Call.provision d.Deal_Name d.id, Call.writeBack d.id board.id])
      | Except.ok _ =>
          (Except.ok ⟨d.id, d.Deal_Name, board.id, board.url⟩,
           [Call.provision d.Deal_Name d.id, Call.writeBack d.id board.id])

/-- One entry of the sync result's `details` list. -/
structure Detail where
  dealId : String
  dealName : Option String
  status : String
  message : String
deriving DecidableEq, Repr

/-- The aggregate returned by `syncDealsToTrello`. -/
structure SyncResult where
  processed : Nat
  created : Nat
  errors : Nat
  details : List Detail
deriving DecidableEq, Repr

/-- One iteration of the `for` loop of `syncDealsToTrello`: skip when the
board-reference is already set, otherwise run `processDeal` and record a
success or error outcome.  Returns the updated accumulator and the remote
write calls issued by this iteration. -/
def syncStep (env : Env) (acc : SyncResult) (d : Deal) : SyncResult × List Call :=
  if hasBoardId d then
    (acc, [])
  else
    match processDeal env d with
    | (Except.ok _, calls) =>
        ({ acc with created := acc.created + 1,
                    details := acc.details ++
                      [⟨d.id, d.Deal_Name, "success", "Trello board created successfully"⟩] },
         calls)
    | (Except.error msg, calls) =>
        ({ acc with errors := acc.errors + 1,
                    details := acc.details ++ [⟨d.id, d.Deal_Name, "error", msg⟩] },
         calls)

/-- The whole `for` loop, threading the accumulator through `syncStep` and
concatenating the call traces in order. -/
def runDeals (env : Env) : List Deal → SyncResult → SyncResult × List Call
  | [], acc => (acc, [])
  | d :: rest, acc =>
      let step := syncStep env acc d
      let tail := runDeals env rest step.1
      (tail.1, step.2 ++ tail.2)

/-- `IntegrationService.syncDealsToTrello`, parameterised by the outcome of
`getEligibleDeals` (`fetch`): an empty fetch short-circuits to the
zero-valued result, a fetch failure is rethrown, and otherwise the loop runs
with `processed` preset to the number of fetched deals. -/
def syncDealsToTrello (env : Env) (fetch : Except String (List Deal)) :
    Except String SyncResult × List Call :=
  match fetch with
  | Except.error e => (Except.error e, [])
  | Except.ok deals =>
    if deals.length = 0 then
      (Except.ok ⟨0, 0, 0, []⟩, [])
    else
      let run := runDeals env deals ⟨deals.length, 0, 0, []⟩
      (Except.ok run.1, run.2)

/-! ### ZohoService -/

/-- `getEligibleDeals`: given the `data` field of the CRM search response
(`none` when absent), keep the deals for which
`!deal.Project_Board_ID__c || deal.Project_Board_ID__c === ''` — note the
double-underscore field name. -/
def getEligibleDeals (respData : Option (List Deal)) : List Deal :=
  match respData with
  | none => []
  | some deals =>
      deals.filter fun d =>
        match d.Project_Board_ID__c with
        | none => true
        | some s => s = ""

/-- The effect on the stored CRM record of the PUT body sent by
`updateDealWithBoardId`: `{ id: dealId, Project_Board_ID_c: boardId }` sets
the single-underscore field. -/
def writeBackEffect (d : Deal) (boardId : String) : Deal :=
  { d with Project_Board_ID_c := some boardId }

/-- Per-record entry of the CRM update response's `data` array. -/
structure RecordStatus where
  status : Option String
deriving DecidableEq, Repr

/-- The CRM update response body: its `data` array may be absent. -/
structure UpdateResponse where
  data : Option (List RecordStatus)
deriving DecidableEq, Repr

/-- `updateDealWithBoardId`, parameterised by the transport outcome of the
PUT request.  The strict validation
`!response.data || !response.data[0] || response.data[0].status !== 'success'`
throws unless the first record of the `data` array explicitly reports
`status: 'success'`. -/
def updateDealWithBoardId (transport : Except String UpdateResponse)
    (dealId : String) : Except String UpdateResponse :=
  match transport with
  | Except.error e => Except.error e
  | Except.ok resp =>
    match resp.data with
    | none =>
        Except.error ("Failed to update deal " ++ dealId ++ " in Zoho. See logs for details.")
    | some [] =>
        Except.error ("Failed to update deal " ++ dealId ++ " in Zoho. See logs for details.")
    | some (x :: _) =>
        if x.status = some "success" then Except.ok resp
        else Except.error ("Failed to update deal " ++ dealId ++ " in Zoho. See logs for details.")

/-- An axios request failure: `status` is `error.response?.status` (absent on
network-level failures), `msg` the error message. -/
structure ReqError where
  status : Option Nat
  msg : String
deriving DecidableEq, Repr

/-- Outcomes the remote side would give for the calls `makeRequest` can
issue: the initial request, the token refresh, and the retried request. -/
structure HttpEnv (α : Type) where
  attempt1 : Except ReqError α
  refresh : Except String String
  attempt2 : Except ReqError α

/-- What `ZohoService.makeRequest` can throw: an axios error, or the plain
`Error` thrown by `refreshAccessToken`. -/
inductive MakeReqError where
  | http (e : ReqError)
  | refreshFailed (msg : String)
deriving DecidableEq, Repr

/-- `refreshAccessToken`: any failure of the token request is replaced by a
fixed error message. -/
def refreshAccessToken (outcome : Except String String) : Except String String :=
  match outcome with
  | Except.ok t => Except.ok t
  | Except.error _ => Except.error "Failed to refresh access token"

/-- Calls issued by one `makeRequest` invocation. -/
structure Trace where
  requests : Nat
  refreshes : Nat
deriving DecidableEq, Repr

/-- `ZohoService.makeRequest`: on a 401 failure of the first request,
refresh the token once and retry the request once; any other failure, a
refresh failure, or a failure of the retried request propagates. -/
def makeRequest {α : Type} (env : HttpEnv α) : Except MakeReqError α × Trace :=
  match env.attempt1 with
  | Except.ok r => (Except.ok r, ⟨1, 0⟩)
  | Except.error e =>
    if e.status = some 401 then
      match refreshAccessToken env.refresh with
      | Except.error m => (Except.error (MakeReqError.refreshFailed m), ⟨1, 1⟩)
      | Except.ok _ =>
        match env.attempt2 with
        | Except.ok r => (Except.ok r, ⟨2, 1⟩)
        | Except.error e2 => (Except.error (MakeReqError.http e2), ⟨2, 1⟩)
    else (Except.error (MakeReqError.http e), ⟨1, 0⟩)

/-! ### TrelloService -/

/-- A Trello board object as returned by the board-creation request. -/
structure TrelloBoard where
  id : String
  url : String
deriving DecidableEq, Repr

/-- A Trello list handle. -/
structure TrelloList where
  id : String
deriving DecidableEq, Repr

/-- A Trello card handle. -/
structure TrelloCard where
  id : String
deriving DecidableEq, Repr

/-- One remote call issued by `createProjectBoard` (the board is always
created private with default lists disabled; cards always get an empty
description). -/
inductive TrelloCall where
  | board (name : String) (desc : String)
  | list (boardId : String) (name : String) (pos : Nat)
  | card (listId : String) (name : String)
deriving DecidableEq, Repr

/-- Outcomes of the Trello API calls `createProjectBoard` can issue. -/
structure TrelloEnv where
  createBoard : String → String → Except String TrelloBoard
  createList : String → String → Nat → Except String TrelloList
  createCard : String → String → Except String TrelloCard

/-- The `lists` component of the value returned by `createProjectBoard`. -/
structure BoardLists where
  todo : TrelloList
  inProgress : TrelloList
  done : TrelloList
deriving DecidableEq, Repr

/-- The composite returned by a successful `createProjectBoard`. -/
structure ProjectBoardResult where
  board : TrelloBoard
  lists : BoardLists
  cards : List TrelloCard
deriving DecidableEq, Repr

/-- The card-creation loop of `createProjectBoard`: create each named card
in the given list in order, collecting the handles, aborting on the first
failure. -/
def createCards (env : TrelloEnv) (listId : String) :
    List String → Except String (List TrelloCard) × List TrelloCall
  | [] => (Except.ok [], [])
  | n :: rest =>
    match env.createCard listId n with
    | Except.error e => (Except.error e, [TrelloCall.card listId n])
    | Except.ok c =>
      let tail := createCards env listId rest
      (tail.1.map (c :: ·), TrelloCall.card listId n :: tail.2)

/-- `TrelloService.createProjectBoard`: create the board, the three lists at
positions 1, 2, 3, then the three initial cards in the To Do list; the first
failure aborts the whole operation.  Also returns the trace of Trello calls
issued. -/
def createProjectBoard (env : TrelloEnv) (dealName dealId : String) :
    Except String ProjectBoardResult × List TrelloCall :=
  let boardName := "Project: " ++ dealName
  let boardDesc :=
    "Project board for deal: " ++ dealName ++ " (Zoho Deal ID: " ++ dealId ++ ")"
  match env.createBoard boardName boardDesc with
  | Except.error e => (Except.error e, [TrelloCall.board boardName boardDesc])
  | Except.ok board =>
    match env.createList board.id "To Do" 1 with
    | Except.error e =>
        (Except.error e,
         [TrelloCall.board boardName boardDesc, TrelloCall.list board.id "To Do" 1])
    | Except.ok todoList =>
      match env.createList board.id "In Progress" 2 with
      | Except.error e =>
          (Except.error e,
           [TrelloCall.board boardName boardDesc, TrelloCall.list board.id "To Do" 1,
            TrelloCall.list board.id "In Progress" 2])
      | Except.ok inProgressList =>
        match env.createList board.id "Done" 3 with
        | Except.error e =>
            (Except.error e,
             [TrelloCall.board boardName boardDesc, TrelloCall.list board.id "To Do" 1,
              TrelloCall.list board.id "In Progress" 2, TrelloCall.list board.id "Done" 3])
        | Except.ok doneList =>
          let cards := createCards env todoList.id
            ["Kickoff Meeting Scheduled", "Requirements Gathering", "System Setup"]
          (cards.1.map fun cs => ⟨board, ⟨todoList, inProgressList, doneList⟩, cs⟩,
           [TrelloCall.board boardName boardDesc, TrelloCall.list board.id "To Do" 1,
            TrelloCall.list board.id "In Progress" 2, TrelloCall.list board.id "Done" 3]
           ++ cards.2)

/-! ### Callers of the sync (server entry file) -/

/-- Outcome of the `POST /sync` express handler. -/
inductive HttpResponse where
  | ok (result : SyncResult)
  | serverError (msg : String)
deriving DecidableEq, Repr

/-- The `POST /sync` handler: awaits the sync inside `try`/`catch`,
answering 200 with the result or 500 with a fixed message — the error never
escapes the handler. -/
def postSyncHandler (env : Env) (fetch : Except String (List Deal)) : HttpResponse :=
  match (syncDealsToTrello env fetch).1 with
  | Except.ok r => HttpResponse.ok r
  | Except.error _ => HttpResponse.serverError "Sync failed"

/-- Outcome of one scheduled (`cron.schedule`) sync run. -/
inductive CronOutcome where
  | completed (result : SyncResult)
  | loggedError (msg : String)
deriving DecidableEq, Repr

/-- The scheduled-sync callback: awaits the sync inside `try`/`catch`,
logging a failure instead of crashing the process. -/
def cronCallback (env : Env) (fetch : Except String (List Deal)) : CronOutcome :=
  match (syncDealsToTrello env fetch).1 with
  | Except.ok r => CronOutcome.completed r
  | Except.error e => CronOutcome.loggedError e

/-! ### Theorems -/

/-- The boolean value `validateDeal` computes, as a conjunction of its three
conditions. -/
theorem validateDeal_eq_and (d : Deal) :
    validateDeal d =
      (decide (d.Stage = some "Project Kickoff") &&
       decide (d.Type_ = some "New Implementation Project") &&
       dealNameCondition d.Deal_Name) := by
  by_cases h1 : d.Stage = some "Project Kickoff" <;>
  by_cases h2 : d.Type_ = some "New Implementation Project" <;>
  cases hc : dealNameCondition d.Deal_Name <;>
  simp [validateDeal, validations, firstFailure, h1, h2, hc]

/-- Trimming the empty string yields the empty string. -/
theorem jsTrim_empty : jsTrim "" = "" := by decide

/-- `dealNameCondition` holds exactly for a present name that is non-empty
after trimming. -/
theorem dealNameCondition_iff (name : Option String) :
    dealNameCondition name = true ↔ ∃ s, name = some s ∧ jsTrim s ≠ "" := by
  cases hn : name with
  | none => simp [dealNameCondition]
  | some s =>
    by_cases hs : s = ""
    · subst hs
      simp [dealNameCondition, jsTrim_empty]
    · simp [dealNameCondition, hs]

/-- C6: `validateDeal` checks stage, type, and trimmed-name non-emptiness,
returning true iff all three pass; a record with an empty or all-whitespace
name (or a missing name) fails regardless of other fields, and a record
whose stage differs from "Project Kickoff" fails regardless of other
fields. -/
theorem validateDeal_checks (d : Deal) :
    (validateDeal d = true ↔
      (d.Stage = some "Project Kickoff" ∧ d.Type_ = some "New Implementation Project" ∧
        ∃ s, d.Deal_Name = some s ∧ jsTrim s ≠ "")) ∧
    (∀ s, d.Deal_Name = some s → jsTrim s = "" → validateDeal d = false) ∧
    (d.Deal_Name = none → validateDeal d = false) ∧
    (d.Stage ≠ some "Project Kickoff" → validateDeal d = false) := by
  refine ⟨?_, ?_, ?_, ?_⟩
  · rw [validateDeal_eq_and]
    simp [dealNameCondition_iff, and_assoc]
  · intro s hs htrim
    rw [validateDeal_eq_and]
    simp [dealNameCondition, hs, htrim]
  · intro hn
    rw [validateDeal_eq_and]
    simp [dealNameCondition, hn]
  · intro h1
    rw [validateDeal_eq_and]
    simp [h1]

/-- Concrete instance of `validateDeal_checks`: an all-whitespace name is
rejected even with matching stage and type. -/
theorem validateDeal_checks_witness :
    validateDeal ⟨"w6", some "  ", some "Project Kickoff",
      some "New Implementation Project", none, none⟩ = false :=
  (validateDeal_checks _).2.1 "  " rfl (by decide)

/-- C10: under throw-aware semantics, `validateDeal` never throws — it
returns `Except.ok` of the boolean `validateDeal` computes on every record,
and a record with a missing name yields `ok false` rather than an
exception. -/
theorem validateDealJs_total (d : Deal) :
    validateDealJs d = Except.ok (validateDeal d) ∧
    (d.Deal_Name = none → validateDealJs d = Except.ok false) := by
  have h1 : validateDealJs d = Except.ok (validateDeal d) := by
    cases hn : d.Deal_Name with
    | none =>
        simp [validateDealJs, dealNameConditionJs, validateDeal, validations,
          dealNameCondition, hn, Bind.bind, Except.bind, pure, Except.pure]
    | some s =>
        by_cases hs : s = "" <;>
          simp [validateDealJs, dealNameConditionJs, validateDeal, validations,
            dealNameCondition, hn, hs, Bind.bind, Except.bind, pure, Except.pure]
  refine ⟨h1, fun hn => ?_⟩
  rw [h1, validateDeal_eq_and]
  simp [dealNameCondition, hn]

/-- Concrete instance of `validateDealJs_total`: a record with no name field
evaluates to `ok false`, not a thrown error. -/
theorem validateDealJs_total_witness :
    validateDealJs ⟨"w10", none, some "Project Kickoff",
      some "New Implementation Project", none, none⟩ = Except.ok false :=
  (validateDealJs_total _).2 rfl

/-- Environment whose write operations are never reached in the C1
instance. -/
def envW1 : Env :=
  ⟨fun _ _ => Except.error "unreachable", fun _ _ => Except.error "unreachable"⟩

/-- Deal already carrying a board reference in the single-underscore
field. -/
def dealW1 : Deal :=
  ⟨"w1", some "Linked", some "Project Kickoff", some "New Implementation Project",
   some "board9", none⟩

/-- C1: a fetched record whose `Project_Board_ID_c` is non-empty after
trimming is skipped by the sync loop: its iteration leaves the accumulator
unchanged and issues no provisioning or write-back call, and splicing the
record anywhere into the processed list leaves the whole run — result and
call trace — unchanged. -/
theorem syncStep_skips_linked (env : Env) (acc : SyncResult) (d : Deal) (s : String)
    (hs : d.Project_Board_ID_c = some s) (ht : jsTrim s ≠ "") :
    syncStep env acc d = (acc, []) ∧
    ∀ pre post acc2, runDeals env (pre ++ d :: post) acc2 = runDeals env (pre ++ post) acc2 := by
  have hguard : hasBoardId d = true := by
    unfold hasBoardId
    rw [hs]
    by_cases h0 : s = ""
    · subst h0
      exact absurd jsTrim_empty ht
    · simp [h0, ht]
  refine ⟨by simp [syncStep, hguard], ?_⟩
  intro pre post
  induction pre with
  | nil =>
      intro acc2
      simp [runDeals, syncStep, hguard]
  | cons a pre ih =>
      intro acc2
      simp only [List.cons_append, runDeals, List.append_eq]
      rw [ih]

/-- Concrete instance of `syncStep_skips_linked`: the already-linked deal is
skipped with no calls and no change to the counters. -/
theorem syncStep_skips_linked_witness :
    syncStep envW1 ⟨2, 1, 1, []⟩ dealW1 = (⟨2, 1, 1, []⟩, []) :=
  (syncStep_skips_linked envW1 ⟨2, 1, 1, []⟩ dealW1 "board9" rfl (by decide)).1

/-- C7: an empty eligible set short-circuits to the zero-valued result with
no remote write call. -/
theorem sync_emptyFetch_zero (env : Env) :
    syncDealsToTrello env (Except.ok []) = (Except.ok ⟨0, 0, 0, []⟩, []) := rfl

/-- C8: a failure of `getEligibleDeals` makes the whole sync rethrow the
error with no provisioning or write-back call issued; both callers catch it
— the manual-trigger handler answers 500 and the scheduled callback logs the
error — instead of crashing. -/
theorem sync_fetchError_propagates (env : Env) (e : String) :
    syncDealsToTrello env (Except.error e) = (Except.error e, []) ∧
    postSyncHandler env (Except.error e) = HttpResponse.serverError "Sync failed" ∧
    cronCallback env (Except.error e) = CronOutcome.loggedError e :=
  ⟨rfl, rfl, rfl⟩

/-- First fetched deal of the mixed-outcome run: its stage disqualifies it,
so validation fails. -/
def dealC2a : Deal :=
  ⟨"d1", some "Alpha", some "Negotiation", some "New Implementation Project", none, none⟩

/-- Second fetched deal: valid, but board provisioning will fail for it. -/
def dealC2b : Deal :=
  ⟨"d2", some "Beta", some "Project Kickoff", some "New Implementation Project", none, none⟩

/-- Third fetched deal: valid, and every remote call succeeds for it. -/
def dealC2c : Deal :=
  ⟨"d3", some "Gamma", some "Project Kickoff", some "New Implementation Project", none, none⟩

/-- Environment of the mixed-outcome run: provisioning fails for `d2` and
succeeds otherwise; write-back always succeeds. -/
def envC2 : Env where
  createBoard := fun _ dealId =>
    if dealId = "d2" then Except.error "Trello API request failed"
    else Except.ok ⟨"board3", "https://trello.example/b/board3"⟩
  updateDeal := fun _ _ => Except.ok ()

/-- C2: with three fetched deals whose board-reference is empty — the first
failing validation, the second failing provisioning, the third fully
succeeding — the sync returns processed = 3, created = 1, errors = 2, with
three detail entries in fetch order carrying each deal's id, name and
outcome; the earlier failures do not abort the later deal. -/
theorem sync_threeDeal_mixed :
    syncDealsToTrello envC2 (Except.ok [dealC2a, dealC2b, dealC2c]) =
      (Except.ok
        ⟨3, 1, 2,
         [⟨"d1", some "Alpha", "error", "Deal does not meet all criteria"⟩,
          ⟨"d2", some "Beta", "error", "Trello API request failed"⟩,
          ⟨"d3", some "Gamma", "success", "Trello board created successfully"⟩]⟩,
       [Call.provision (some "Beta") "d2",
        Call.provision (some "Gamma") "d3",
        Call.writeBack "d3" "board3"]) := by
  rfl

/-- A deal with no board reference recorded under either field name. -/
def dealC3 : Deal :=
  ⟨"dz", some "Acme", some "Project Kickoff", some "New Implementation Project", none, none⟩

/-- C3 (counterexample on the code): after a successful write-back sets
`Project_Board_ID_c`, `getEligibleDeals` still returns the record, because
its filter inspects the distinct double-underscore field
`Project_Board_ID__c`, which the write-back never touches. -/
theorem getEligibleDeals_returns_linked :
    (writeBackEffect dealC3 "board1").Project_Board_ID_c = some "board1" ∧
    getEligibleDeals (some [writeBackEffect dealC3 "board1"]) =
      [writeBackEffect dealC3 "board1"] := by
  decide

/-- The claim's reading of "response lacks an explicit per-record success
status": no data array, an empty one, or a first record whose status is not
the string "success". -/
def noExplicitSuccess (resp : UpdateResponse) : Bool :=
  match resp.data with
  | none => true
  | some [] => true
  | some (x :: _) => x.status ≠ some "success"

/-- C5: when the CRM update response lacks an explicit per-record success
status, `updateDealWithBoardId` throws (and never returns a success), and
the sync loop then records an error outcome for the record — with the
provisioning call already issued — rather than a success. -/
theorem updateDeal_strict (resp : UpdateResponse) (dealId : String)
    (h : noExplicitSuccess resp = true) :
    (updateDealWithBoardId (Except.ok resp) dealId =
      Except.error ("Failed to update deal " ++ dealId ++ " in Zoho. See logs for details.")) ∧
    (∀ r, updateDealWithBoardId (Except.ok resp) dealId ≠ Except.ok r) ∧
    (∀ env acc d boardH,
      hasBoardId d = false → validateDeal d = true →
      env.createBoard d.Deal_Name d.id = Except.ok boardH →
      (∀ bid, env.updateDeal d.id bid =
        (updateDealWithBoardId (Except.ok resp) d.id).map fun _ => ()) →
      syncStep env acc d =
        ({ acc with
            errors := acc.errors + 1,
            details := acc.details ++
              [⟨d.id, d.Deal_Name, "error",
                "Failed to update deal " ++ d.id ++ " in Zoho. See logs for details."⟩] },
         [Call.provision d.Deal_Name d.id, Call.writeBack d.id boardH.id])) := by
  have herr : ∀ did, updateDealWithBoardId (Except.ok resp) did =
      Except.error ("Failed to update deal " ++ did ++ " in Zoho. See logs for details.") := by
    intro did
    unfold noExplicitSuccess at h
    cases hd : resp.data with
    | none => simp [updateDealWithBoardId, hd]
    | some l =>
      cases l with
      | nil => simp [updateDealWithBoardId, hd]
      | cons x rest =>
        rw [hd] at h
        simp at h
        simp [updateDealWithBoardId, hd, h]
  refine ⟨herr dealId, ?_, ?_⟩
  · intro r hr
    rw [herr dealId] at hr
    exact Except.noConfusion hr
  · intro env acc d boardH hskip hvalid hboard hupd
    have hupdv : env.updateDeal d.id boardH.id =
        Except.error ("Failed to update deal " ++ d.id ++ " in Zoho. See logs for details.") := by
      rw [hupd boardH.id, herr d.id]
      rfl
    simp [syncStep, hskip, processDeal, hvalid, hboard, hupdv]

/-- Deal used to instantiate `updateDeal_strict`. -/
def dealC5 : Deal :=
  ⟨"d5", some "Epsilon", some "Project Kickoff", some "New Implementation Project", none, none⟩

/-- Environment in which provisioning succeeds and the CRM update's
transport yields a response with no data array. -/
def envC5 : Env where
  createBoard := fun _ _ => Except.ok ⟨"board5", "https://trello.example/b/board5"⟩
  updateDeal := fun did _ => (updateDealWithBoardId (Except.ok ⟨none⟩) did).map fun _ => ()

/-- Concrete instance of `updateDeal_strict`: a response with a missing data
array makes the update throw, and the sync loop records an error outcome
after the board was provisioned. -/
theorem updateDeal_strict_witness :
    updateDealWithBoardId (Except.ok (⟨none⟩ : UpdateResponse)) "d5" =
      Except.error ("Failed to update deal " ++ "d5" ++ " in Zoho. See logs for details.") ∧
    syncStep envC5 ⟨1, 0, 0, []⟩ dealC5 =
      (⟨1, 0, 1,
        [⟨"d5", some "Epsilon", "error",
          "Failed to update deal " ++ "d5" ++ " in Zoho. See logs for details."⟩]⟩,
       [Call.provision (some "Epsilon") "d5", Call.writeBack "d5" "board5"]) :=
  ⟨(updateDeal_strict ⟨none⟩ "d5" rfl).1,
   (updateDeal_strict ⟨none⟩ "d5" rfl).2.2 envC5 ⟨1, 0, 0, []⟩ dealC5
     ⟨"board5", "https://trello.example/b/board5"⟩ (by decide) (by decide) rfl
     (fun _ => rfl)⟩

/-- C9: `makeRequest` issues at most two requests and at most one refresh;
a successful first request returns immediately; a non-401 failure (including
a response-less network failure) propagates with no refresh and no retry;
a 401 triggers exactly one refresh and then exactly one retry, a refresh
failure propagating with no retry and the retried request's outcome —
success or failure — being final. -/
theorem makeRequest_single_retry {α : Type} (env : HttpEnv α) :
    ((makeRequest env).2.requests ≤ 2 ∧ (makeRequest env).2.refreshes ≤ 1) ∧
    (∀ r, env.attempt1 = Except.ok r → makeRequest env = (Except.ok r, ⟨1, 0⟩)) ∧
    (∀ e, env.attempt1 = Except.error e → e.status ≠ some 401 →
       makeRequest env = (Except.error (MakeReqError.http e), ⟨1, 0⟩)) ∧
    (∀ e, env.attempt1 = Except.error e → e.status = some 401 →
       ((∀ m, env.refresh = Except.error m →
          makeRequest env =
            (Except.error (MakeReqError.refreshFailed "Failed to refresh access token"), ⟨1, 1⟩)) ∧
        (∀ t, env.refresh = Except.ok t →
          ((∀ r, env.attempt2 = Except.ok r → makeRequest env = (Except.ok r, ⟨2, 1⟩)) ∧
           (∀ e2, env.attempt2 = Except.error e2 →
             makeRequest env = (Except.error (MakeReqError.http e2), ⟨2, 1⟩)))))) := by
  refine ⟨?_, ?_, ?_, ?_⟩
  · unfold makeRequest
    match h1 : env.attempt1 with
    | Except.ok r => simp
    | Except.error e =>
      by_cases h401 : e.status = some 401
      · simp only [h401, if_pos rfl]
        match hr : refreshAccessToken env.refresh with
        | Except.error m => simp
        | Except.ok t =>
          match h2 : env.attempt2 with
          | Except.ok r => simp
          | Except.error e2 => simp
      · simp [h401]
  · intro r h1
    simp [makeRequest, h1]
  · intro e h1 h401
    simp [makeRequest, h1, h401]
  · intro e h1 h401
    constructor
    · intro m hm
      simp [makeRequest, h1, h401, refreshAccessToken, hm]
    · intro t ht
      constructor
      · intro r h2
        simp [makeRequest, h1, h401, refreshAccessToken, ht, h2]
      · intro e2 h2
        simp [makeRequest, h1, h401, refreshAccessToken, ht, h2]

/-- Transport environment whose first request fails with 401, whose refresh
succeeds, and whose retried request succeeds. -/
def envC9 : HttpEnv Nat :=
  ⟨Except.error ⟨some 401, "unauthorized"⟩, Except.ok "token2", Except.ok 7⟩

/-- Concrete instance of `makeRequest_single_retry`: a 401 followed by a
successful refresh and retry yields the retried response after exactly two
requests and one refresh. -/
theorem makeRequest_single_retry_witness :
    makeRequest envC9 = (Except.ok 7, ⟨2, 1⟩) :=
  (((makeRequest_single_retry envC9).2.2.2 ⟨some 401, "unauthorized"⟩ rfl rfl).2
    "token2" rfl).1 7 rfl

/-- C4: a successful `createProjectBoard` issues exactly one board-creation
call named `"Project: " ++ name` with a description embedding the deal id,
then exactly three list creations on that board in order To Do, In Progress,
Done at positions 1, 2, 3, then exactly three card creations in the To Do
list in order Kickoff Meeting Scheduled, Requirements Gathering, System
Setup, and the returned composite carries the created board and exactly
three card handles. -/
theorem createProjectBoard_shape (env : TrelloEnv) (n d : String)
    (res : ProjectBoardResult) (calls : List TrelloCall)
    (h : createProjectBoard env n d = (Except.ok res, calls)) :
    env.createBoard ("Project: " ++ n)
      ("Project board for deal: " ++ n ++ " (Zoho Deal ID: " ++ d ++ ")") =
      Except.ok res.board ∧
    calls =
      [TrelloCall.board ("Project: " ++ n)
         ("Project board for deal: " ++ n ++ " (Zoho Deal ID: " ++ d ++ ")"),
       TrelloCall.list res.board.id "To Do" 1,
       TrelloCall.list res.board.id "In Progress" 2,
       TrelloCall.list res.board.id "Done" 3,
       TrelloCall.card res.lists.todo.id "Kickoff Meeting Scheduled",
       TrelloCall.card res.lists.todo.id "Requirements Gathering",
       TrelloCall.card res.lists.todo.id "System Setup"] ∧
    res.cards.length = 3 := by
  unfold createProjectBoard at h
  dsimp only at h
  cases hb : env.createBoard ("Project: " ++ n)
      ("Project board for deal: " ++ n ++ " (Zoho Deal ID: " ++ d ++ ")") with
  | error e => rw [hb] at h; simp at h
  | ok board =>
  rw [hb] at h
  dsimp only at h
  cases hl1 : env.createList board.id "To Do" 1 with
  | error e => rw [hl1] at h; simp at h
  | ok todoList =>
  rw [hl1] at h
  dsimp only at h
  cases hl2 : env.createList board.id "In Progress" 2 with
  | error e => rw [hl2] at h; simp at h
  | ok inProgressList =>
  rw [hl2] at h
  dsimp only at h
  cases hl3 : env.createList board.id "Done" 3 with
  | error e => rw [hl3] at h; simp at h
  | ok doneList =>
  rw [hl3] at h
  dsimp only at h
  cases hc1 : env.createCard todoList.id "Kickoff Meeting Scheduled" with
  | error e => simp [createCards, hc1, Except.map] at h
  | ok card1 =>
  cases hc2 : env.createCard todoList.id "Requirements Gathering" with
  | error e => simp [createCards, hc1, hc2, Except.map] at h
  | ok card2 =>
  cases hc3 : env.createCard todoList.id "System Setup" with
  | error e => simp [createCards, hc1, hc2, hc3, Except.map] at h
  | ok card3 =>
  simp only [createCards, hc1, hc2, hc3, Except.map, List.cons_append,
    List.nil_append, Prod.mk.injEq, Except.ok.injEq] at h
  obtain ⟨hres, hcalls⟩ := h
  subst hcalls
  subst hres
  exact ⟨rfl, rfl, rfl⟩

/-- Trello environment in which every call succeeds, with ids derived from
the created object's name. -/
def trelloEnvOk : TrelloEnv where
  createBoard := fun _ _ => Except.ok ⟨"B1", "https://trello.example/b/B1"⟩
  createList := fun _ name _ => Except.ok ⟨"L-" ++ name⟩
  createCard := fun _ name => Except.ok ⟨"C-" ++ name⟩

/-- The composite `createProjectBoard trelloEnvOk "Acme" "dz"` returns. -/
def resC4 : ProjectBoardResult :=
  ⟨⟨"B1", "https://trello.example/b/B1"⟩,
   ⟨⟨"L-To Do"⟩, ⟨"L-In Progress"⟩, ⟨"L-Done"⟩⟩,
   [⟨"C-Kickoff Meeting Scheduled"⟩, ⟨"C-Requirements Gathering"⟩, ⟨"C-System Setup"⟩]⟩

/-- Concrete instance of `createProjectBoard_shape` with every Trello call
succeeding. -/
theorem createProjectBoard_shape_witness :
    trelloEnvOk.createBoard ("Project: " ++ "Acme")
      ("Project board for deal: " ++ "Acme" ++ " (Zoho Deal ID: " ++ "dz" ++ ")") =
      Except.ok resC4.board ∧
    [TrelloCall.board ("Project: " ++ "Acme")
       ("Project board for deal: " ++ "Acme" ++ " (Zoho Deal ID: " ++ "dz" ++ ")"),
     TrelloCall.list resC4.board.id "To Do" 1,
     TrelloCall.list resC4.board.id "In Progress" 2,
     TrelloCall.list resC4.board.id "Done" 3,
     TrelloCall.card resC4.lists.todo.id "Kickoff Meeting Scheduled",
     TrelloCall.card resC4.lists.todo.id "Requirements Gathering",
     TrelloCall.card resC4.lists.todo.id "System Setup"] =
    [TrelloCall.board ("Project: " ++ "Acme")
       ("Project board for deal: " ++ "Acme" ++ " (Zoho Deal ID: " ++ "dz" ++ ")"),
     TrelloCall.list resC4.board.id "To Do" 1,
     TrelloCall.list resC4.board.id "In Progress" 2,
     TrelloCall.list resC4.board.id "Done" 3,
     TrelloCall.card resC4.lists.todo.id "Kickoff Meeting Scheduled",
     TrelloCall.card resC4.lists.todo.id "Requirements Gathering",
     TrelloCall.card resC4.lists.todo.id "System Setup"] ∧
    resC4.cards.length = 3 :=
  createProjectBoard_shape trelloEnvOk "Acme" "dz" resC4 _ rfl

end ZohoTrello
